import Mathlib

/-!
Verification of the foreign-key reference resolver in
`pylint_django/transforms/foreignkey.py`.

The Python module is shallowly embedded below.  Syntax-tree nodes live in an
arena (`List AstNode`) indexed by natural numbers; walking `.parent` chains is
explicit arena navigation.  External collaborators (astroid's `infer`,
`node_is_subclass` from `pylint_django.utils` which is not part of the sources
under verification, Django's app registry) are oracle fields of the `Ctx`
record.  Unbounded Python recursion is modelled with explicit fuel; exhausting
the fuel is reported as `PyErr.recursionError`, mirroring a Python
`RecursionError`.
-/

namespace PylintDjango

/-- Python constant values that can appear in a `Const` node. -/
inductive PyVal
  | str (s : String)
  | int (n : Int)
  | noneVal
  | boolVal (b : Bool)
deriving DecidableEq

/-- The shape of a call's callee: `node.func` is a `Name`, an `Attribute`,
or something else. -/
inductive FuncExpr
  | nameF (s : String)
  | attrF (s : String)
  | otherF
deriving DecidableEq

/-- Kinds of syntax-tree nodes used by the resolver.  Child references are
arena indices. -/
inductive NodeKind
  | module (name : String)
  | classDecl (name : String)
  | funcDecl (name : String)
  | assign
  | call (func : FuncExpr) (args : List Nat) (keywords : List Nat)
  | keyword (arg : Option String) (value : Nat)
  | const (value : PyVal)
  | nameExpr (id : String)
  | attributeExpr (attrname : String)
  | importFrom (modname : String)
  | tupleExpr
  | other
deriving DecidableEq

/-- An arena node: its kind plus the `.parent` link (`none` models Python
`None`). -/
structure AstNode where
  kind : NodeKind
  parent : Option Nat
deriving DecidableEq

/-- A module known to astroid's cache: its dotted name and its `locals`
mapping (name to the list of arena nodes bound to that name, as
`module.lookup(name)[1]` returns them). -/
structure ModuleEntry where
  name : String
  locals : List (String × List Nat)
deriving DecidableEq

/-- Failures of `_module_name_from_django_model_resolution`:
`LookupError` from the app registry, or `ImproperlyConfigured` from
`django.setup()` / registry access. -/
inductive RegErr
  | lookupErr
  | improperlyConfigured
deriving DecidableEq

/-- Python-level outcomes that abort or terminate `infer_key_classes`. -/
inductive PyErr
  | useInferenceDefault
  | attributeError
  | unboundLocalError
  | runtimeError (msg : String)
  | recursionError
  | importError
deriving DecidableEq

/-- The single inferred value handed back to astroid:
`iter([cls.instantiate_class()])`. -/
inductive Resolved
  | instanceOf (classId : Nat)
deriving DecidableEq

/-- The evaluation context: the syntax-tree arena, the astroid module cache
snapshot iterated by the resolver, and the external oracles. -/
structure Ctx where
  /-- arena of syntax-tree nodes; ids are list indices -/
  ast : List AstNode
  /-- snapshot of `MANAGER.astroid_cache.values()` in iteration order -/
  cache : List ModuleEntry
  /-- `do_import_module()` resolution of a module name -/
  findModule : String → Option ModuleEntry
  /-- Modelled from the spec: `node_is_subclass` from `pylint_django/utils.py`
  is not among the sources under verification; per the spec it decides whether
  the class at the given arena id is a (possibly transitive) subclass of the
  framework's base model type, given the parent patterns it is called with. -/
  nodeIsSubclass : Nat → List String → Bool
  /-- `_module_name_from_django_model_resolution model_name module_name`:
  Django's registry, returning the defining module's dotted path -/
  registry : String → String → Except RegErr String
  /-- `arg.infer(context)`: `InferenceError` or the lazy sequence of inferred
  values (arena ids), of which the code takes only the head -/
  inferOracle : Nat → Except Unit (List Nat)
  /-- recursion fuel standing in for Python's call stack -/
  fuel : Nat

/-- Fetch a node from the arena. -/
def getNode (ctx : Ctx) (i : Nat) : Option AstNode :=
  ctx.ast[i]?

/-- Python `s.endswith(pat)` (substring suffix test), computed on character
lists. -/
def strEndsWith (s pat : String) : Bool :=
  List.isPrefixOf pat.toList.reverse s.toList.reverse

/-- Split a character list at its last `'.'`: `some (before, after)` when a
dot occurs, `none` otherwise. -/
def splitLastDot : List Char → Option (List Char × List Char)
  | [] => none
  | c :: rest =>
    match splitLastDot rest with
    | some (pre, post) => some (c :: pre, post)
    | none => if c = '.' then some ([], rest) else none

/-- Python `value.rpartition(".")`, keeping the first and last components:
`("a.b.c")` gives `("a.b", "c")`; with no dot it gives `("", value)`. -/
def rpartitionDot (s : String) : String × String :=
  match splitLastDot s.toList with
  | some (pre, post) => (String.mk pre, String.mk post)
  | none => ("", s)

/-- `module.lookup(model_name)[1]`, modelled as the module's `locals`
entry for the name (empty when the name is unbound). -/
def lookupLocals (m : ModuleEntry) (name : String) : List Nat :=
  (m.locals.lookup name).getD []

/-- The body of the `for module_node in module.lookup(model_name)[1]` loop of
`_get_model_class_defs_from_module`: class definitions that subclass the
Django model base are collected, `ImportFrom` nodes are followed by recursing
into the imported module's own lookup results, anything else is skipped.
Besides the class list the function returns the trace of modules visited while
following imports, used to reason about the visit discipline.  The Python
function recurses with no visited set; the structural fuel (spent one unit per
loop step) stands in for the Python call stack and `PyErr.recursionError` for
its exhaustion — a cycle of `from X import Y` re-exports exhausts any fuel. -/
def collectDefs (ctx : Ctx) : Nat → List Nat → String → String →
    List String × Except PyErr (List Nat)
  | 0, _, _, _ => ([], Except.error PyErr.recursionError)
  | Nat.succ _, [], _, _ => ([], Except.ok [])
  | Nat.succ f, e :: rest, model_name, module_name =>
    match getNode ctx e with
    | none => ([], Except.error PyErr.attributeError)
    | some nd =>
      match nd.kind with
      | NodeKind.classDecl _ =>
        let keep := if ctx.nodeIsSubclass e ["django.db.models.base.Model"] then [e] else []
        let r := collectDefs ctx f rest model_name module_name
        (r.1, Except.map (fun ds => keep ++ ds) r.2)
      | NodeKind.importFrom mn =>
        match ctx.findModule mn with
        | none => ([], Except.error PyErr.importError)
        | some m2 =>
          let inner := collectDefs ctx f (lookupLocals m2 model_name) model_name module_name
          match inner.2 with
          | Except.error e2 => (m2.name :: inner.1, Except.error e2)
          | Except.ok ds =>
            let r := collectDefs ctx f rest model_name module_name
            (m2.name :: (inner.1 ++ r.1), Except.map (fun ds2 => ds ++ ds2) r.2)
      | _ =>
        collectDefs ctx f rest model_name module_name

/-- Embeds `_get_model_class_defs_from_module`: visit the module, then walk
its lookup results for `model_name` with `collectDefs`. -/
def get_model_class_defs_from_module (ctx : Ctx) (fuel : Nat) (m : ModuleEntry)
    (model_name module_name : String) : List String × Except PyErr (List Nat) :=
  match fuel with
  | 0 => ([], Except.error PyErr.recursionError)
  | Nat.succ f =>
    let r := collectDefs ctx f (lookupLocals m model_name) model_name module_name
    (m.name :: r.1, r.2)

instance {ε α : Type} [DecidableEq ε] [DecidableEq α] : DecidableEq (Except ε α) := fun x y =>
  match x, y with
  | Except.ok a, Except.ok b =>
    if h : a = b then isTrue (by rw [h])
    else isFalse (by intro he; cases he; exact h rfl)
  | Except.error a, Except.error b =>
    if h : a = b then isTrue (by rw [h])
    else isFalse (by intro he; cases he; exact h rfl)
  | Except.ok _, Except.error _ => isFalse (by intro he; cases he)
  | Except.error _, Except.ok _ => isFalse (by intro he; cases he)

/-- Python attribute access `x.parent` on a possibly-`None` value: accessing
any attribute of `None` raises `AttributeError` (the `Unit` error); on a real
node it yields the node's parent, which may itself be `None`. -/
def pyParent (ctx : Ctx) : Option Nat → Except Unit (Option Nat)
  | none => Except.error ()
  | some i =>
    match getNode ctx i with
    | none => Except.error ()
    | some n => Except.ok n.parent

/-- Python attribute access `x.name` on a possibly-`None` value: only
`Module`, `ClassDef`, `FunctionDef` and `Name` nodes carry a `.name`;
everything else (and `None`) raises `AttributeError`. -/
def pyName (ctx : Ctx) : Option Nat → Except Unit String
  | none => Except.error ()
  | some i =>
    match getNode ctx i with
    | none => Except.error ()
    | some n =>
      match n.kind with
      | NodeKind.module s => Except.ok s
      | NodeKind.classDecl s => Except.ok s
      | NodeKind.funcDecl s => Except.ok s
      | NodeKind.nameExpr s => Except.ok s
      | _ => Except.error ()

/-- Whether `arg.parent` is a `Keyword` node with `arg == "to"`
(`isinstance(arg.parent, nodes.Keyword) and arg.parent.arg == "to"`;
`isinstance(None, ...)` is simply false). -/
def parentIsKeywordTo (ctx : Ctx) (p : Option Nat) : Bool :=
  match p with
  | none => false
  | some pid =>
    match getNode ctx pid with
    | none => false
    | some n =>
      match n.kind with
      | NodeKind.keyword (some "to") _ => true
      | _ => false

/-- The `try` block of the `Const` branch of `infer_key_classes`: from the
literal's value compute `(module_name, model_name)`.  The `Unit` error is the
`AttributeError` caught by `except AttributeError: break`. -/
def constNames (ctx : Ctx) (argId : Nat) (v : PyVal) : Except Unit (String × String) :=
  if v = PyVal.str "self" then
    match pyParent ctx (some argId) with
    | Except.error e => Except.error e
    | Except.ok p =>
      if parentIsKeywordTo ctx p then
        match pyParent ctx p with
        | Except.error e => Except.error e
        | Except.ok p2 =>
          match pyParent ctx p2 with
          | Except.error e => Except.error e
          | Except.ok p3 =>
            match pyParent ctx p3 with
            | Except.error e => Except.error e
            | Except.ok p4 =>
              match pyName ctx p4 with
              | Except.error e => Except.error e
              | Except.ok nm => Except.ok ("", nm)
      else
        match pyParent ctx p with
        | Except.error e => Except.error e
        | Except.ok p2 =>
          match pyParent ctx p2 with
          | Except.error e => Except.error e
          | Except.ok p3 =>
            match pyName ctx p3 with
            | Except.error e => Except.error e
            | Except.ok nm => Except.ok ("", nm)
  else
    match v with
    | PyVal.str s => Except.ok (rpartitionDot s)
    | _ => Except.error ()

/-- Frame nodes in astroid: `Module`, `ClassDef`, `FunctionDef`. -/
def isFrameKind : NodeKind → Bool
  | NodeKind.module _ => true
  | NodeKind.classDecl _ => true
  | NodeKind.funcDecl _ => true
  | _ => false

/-- `node.frame()`: the nearest enclosing frame node, the node itself
included. -/
def frameOf (ctx : Ctx) : Nat → Nat → Except PyErr Nat
  | 0, _ => Except.error PyErr.recursionError
  | Nat.succ f, i =>
    match getNode ctx i with
    | none => Except.error PyErr.attributeError
    | some n =>
      if isFrameKind n.kind then Except.ok i
      else
        match n.parent with
        | none => Except.error PyErr.attributeError
        | some p => frameOf ctx f p

/-- The `while not isinstance(current_module, nodes.Module):
current_module = current_module.parent.frame()` loop, returning the enclosing
module's dotted name. -/
def enclosingModule (ctx : Ctx) : Nat → Nat → Except PyErr String
  | 0, _ => Except.error PyErr.recursionError
  | Nat.succ f, i =>
    match getNode ctx i with
    | none => Except.error PyErr.attributeError
    | some n =>
      match n.kind with
      | NodeKind.module s => Except.ok s
      | _ =>
        match n.parent with
        | none => Except.error PyErr.attributeError
        | some p =>
          match frameOf ctx ctx.fuel p with
          | Except.error e => Except.error e
          | Except.ok fr => enclosingModule ctx f fr

/-- The message of the `RuntimeError` raised when Django reports
`ImproperlyConfigured`. -/
def djangoSettingsMsg : String :=
  "DJANGO_SETTINGS_MODULE required for resolving ForeignKey " ++
  "string references, see Usage section in README at " ++
  "https://pypi.org/project/pylint-django/!"

/-- The module-hint resolution block of `infer_key_classes`: empty hint means
the module lexically enclosing the call; a hint not ending in `"models"` is
treated as an app label and sent to Django's registry, degrading to
`hint ++ ".models"` on `LookupError` and raising the fatal `RuntimeError` on
`ImproperlyConfigured`. -/
def resolveModuleHint (ctx : Ctx) (callId : Nat) (module_name model_name : String) :
    Except PyErr String :=
  if module_name = "" then
    match frameOf ctx ctx.fuel callId with
    | Except.error e => Except.error e
    | Except.ok fr => enclosingModule ctx ctx.fuel fr
  else if strEndsWith module_name "models" = false then
    match ctx.registry model_name module_name with
    | Except.ok m => Except.ok m
    | Except.error RegErr.lookupErr => Except.ok (module_name ++ ".models")
    | Except.error RegErr.improperlyConfigured =>
      Except.error (PyErr.runtimeError djangoSettingsMsg)
  else
    Except.ok module_name

/-- `x.instantiate_class()`: defined on `ClassDef` nodes, an
`AttributeError` on anything else (e.g. `Uninferable` or a non-class inferred
value). -/
def instantiate_class (ctx : Ctx) (i : Nat) : Except PyErr Nat :=
  match getNode ctx i with
  | none => Except.error PyErr.attributeError
  | some n =>
    match n.kind with
    | NodeKind.classDecl _ => Except.ok i
    | _ => Except.error PyErr.attributeError

/-- The `for module in list(MANAGER.astroid_cache.values())` loop: the first
module whose locals bind `model_name` and whose dotted name ends with
`module_name` and in which the locator finds at least one model class yields
that first class; `ok none` means the whole scan fell through. -/
def cacheScan (ctx : Ctx) (mods : List ModuleEntry) (model_name module_name : String) :
    Except PyErr (Option Nat) :=
  match mods with
  | [] => Except.ok none
  | m :: rest =>
    if (m.locals.lookup model_name).isSome && strEndsWith m.name module_name then
      match (get_model_class_defs_from_module ctx ctx.fuel m model_name module_name).2 with
      | Except.error e => Except.error e
      | Except.ok [] => cacheScan ctx rest model_name module_name
      | Except.ok (c :: _) => Except.ok (some c)
    else cacheScan ctx rest model_name module_name

/-- The state of the Python local `key_cls` across loop iterations: never
assigned, assigned `None`, or holding an inferred value. -/
inductive KeyCls
  | unbound
  | noneVal
  | val (id : Nat)
deriving DecidableEq

/-- How the `for arg in all_args` loop ends: an early `return` from a cache
hit, a `break` (carrying the `key_cls` state), normal exhaustion (the loop's
`else:` clause), or an uncaught exception. -/
inductive LoopOut
  | returned (classId : Nat)
  | broke (k : KeyCls)
  | fell (k : KeyCls)
  | errored (e : PyErr)
deriving DecidableEq

/-- The `for arg in all_args` loop of `infer_key_classes`.  `Name`/`Attribute`
candidates set `key_cls = None`, take the first inferred value and `break` on
success, `continue` on `InferenceError` or an empty inference; `Const`
candidates parse the literal (`break` on `AttributeError`), resolve the module
hint and scan the cache, returning on a hit and falling through to the next
candidate otherwise; other candidate kinds are skipped. -/
def processArgs (ctx : Ctx) (callId : Nat) : List Nat → KeyCls → LoopOut
  | [], k => LoopOut.fell k
  | argId :: rest, k =>
    match getNode ctx argId with
    | none => LoopOut.errored PyErr.attributeError
    | some n =>
      match n.kind with
      | NodeKind.nameExpr _ =>
        match ctx.inferOracle argId with
        | Except.error _ => processArgs ctx callId rest KeyCls.noneVal
        | Except.ok [] => processArgs ctx callId rest KeyCls.noneVal
        | Except.ok (v :: _) => LoopOut.broke (KeyCls.val v)
      | NodeKind.attributeExpr _ =>
        match ctx.inferOracle argId with
        | Except.error _ => processArgs ctx callId rest KeyCls.noneVal
        | Except.ok [] => processArgs ctx callId rest KeyCls.noneVal
        | Except.ok (v :: _) => LoopOut.broke (KeyCls.val v)
      | NodeKind.const v =>
        match constNames ctx argId v with
        | Except.error _ => LoopOut.broke k
        | Except.ok (module_name0, model_name) =>
          match resolveModuleHint ctx callId module_name0 model_name with
          | Except.error e => LoopOut.errored e
          | Except.ok module_name =>
            match cacheScan ctx ctx.cache model_name module_name with
            | Except.error e => LoopOut.errored e
            | Except.ok (some c) => LoopOut.returned c
            | Except.ok none => processArgs ctx callId rest k
      | _ => processArgs ctx callId rest k

/-- Embeds `infer_key_classes`.  The candidate sequence is the positional
arguments followed by the values of `to=` keywords; the loop outcome is mapped
back to Python control flow: a cache hit returns the instantiated class, loop
exhaustion raises `UseInferenceDefault`, a `break` reaches
`return iter([key_cls.instantiate_class()])` whose effect depends on the
`key_cls` state (`UnboundLocalError` when never assigned, `AttributeError`
on `None`). -/
def infer_key_classes (ctx : Ctx) (callId : Nat) : Except PyErr Resolved :=
  match getNode ctx callId with
  | none => Except.error PyErr.attributeError
  | some n =>
    match n.kind with
    | NodeKind.call _ args kws =>
      let keyword_args := kws.filterMap (fun kid =>
        match getNode ctx kid with
        | some kn =>
          match kn.kind with
          | NodeKind.keyword (some "to") v => some v
          | _ => none
        | none => none)
      let all_args := args ++ keyword_args
      match processArgs ctx callId all_args KeyCls.unbound with
      | LoopOut.returned c =>
        match instantiate_class ctx c with
        | Except.ok i => Except.ok (Resolved.instanceOf i)
        | Except.error e => Except.error e
      | LoopOut.fell _ => Except.error PyErr.useInferenceDefault
      | LoopOut.broke KeyCls.unbound => Except.error PyErr.unboundLocalError
      | LoopOut.broke KeyCls.noneVal => Except.error PyErr.attributeError
      | LoopOut.broke (KeyCls.val v) =>
        match instantiate_class ctx v with
        | Except.ok i => Except.ok (Resolved.instanceOf i)
        | Except.error e => Except.error e
      | LoopOut.errored e => Except.error e
    | _ => Except.error PyErr.attributeError

/-- The `attr` extraction from `node.func`: `attrname` of an `Attribute`,
`name` of a `Name`, nothing otherwise. -/
def funcAttr : FuncExpr → Option String
  | FuncExpr.attrF a => some a
  | FuncExpr.nameF a => some a
  | FuncExpr.otherF => none

/-- `isinstance(x, nodes.Assign)`. -/
def isAssignKind : NodeKind → Bool
  | NodeKind.assign => true
  | _ => false

/-- `isinstance(x, ClassDef)`. -/
def isClassdefKind : NodeKind → Bool
  | NodeKind.classDecl _ => true
  | _ => false

/-- The tail of `is_foreignkey_in_class`: extract `attr` from `node.func`
(returning false for any other callee shape) and test membership in
`("OneToOneField", "ForeignKey")`. -/
def calleeNameOk (k : NodeKind) : Bool :=
  match k with
  | NodeKind.call f _ _ =>
    match funcAttr f with
    | some a => a == "OneToOneField" || a == "ForeignKey"
    | none => false
  | _ => false

/-- Embeds `is_foreignkey_in_class`: parent is an `Assign`, grandparent a
`ClassDef` subclassing Django's model base, and the callee's final name is
`OneToOneField` or `ForeignKey`. -/
def is_foreignkey_in_class (ctx : Ctx) (nid : Nat) : Bool :=
  match getNode ctx nid with
  | none => false
  | some n =>
    match n.parent with
    | none => false
    | some pid =>
      match getNode ctx pid with
      | none => false
      | some p =>
        if isAssignKind p.kind = false then false
        else
          match p.parent with
          | none => false
          | some gid =>
            match getNode ctx gid with
            | none => false
            | some g =>
              if isClassdefKind g.kind = false then false
              else if ctx.nodeIsSubclass gid ["django.db.models.base.Model", ".Model"] = false
                then false
              else calleeNameOk n.kind

/-- The dotted names of the cache modules whose locals bind the given arena
node (used to say in which module a class definition lives). -/
def modulesBinding (cache : List ModuleEntry) (cid : Nat) : List String :=
  (cache.filter (fun m => m.locals.any (fun kv => kv.2.contains cid))).map
    (fun m => m.name)

/-- Occurrences of a string in a list. -/
def countStr (s : String) (l : List String) : Nat :=
  (l.filter (fun t => t == s)).length

/-- A context with no syntax tree and no modules, for exercising the pure
string-handling paths. -/
def ctxEmpty : Ctx where
  ast := []
  cache := []
  findModule := fun _ => none
  nodeIsSubclass := fun _ _ => false
  registry := fun _ _ => Except.error RegErr.lookupErr
  inferOracle := fun _ => Except.error ()
  fuel := 10

/-- Arena for the direct-inference scenario: a model class `A` in module
`app.models` declaring `x = ForeignKey(OtherModel, "B")`, with classes `K`
(the value inference assigns to `OtherModel`) and `B` both defined in the
module. -/
def astC1 : List AstNode :=
  [ ⟨NodeKind.module "app.models", none⟩,
    ⟨NodeKind.classDecl "A", some 0⟩,
    ⟨NodeKind.assign, some 1⟩,
    ⟨NodeKind.call (FuncExpr.nameF "ForeignKey") [4, 5] [], some 2⟩,
    ⟨NodeKind.nameExpr "OtherModel", some 3⟩,
    ⟨NodeKind.const (PyVal.str "B"), some 3⟩,
    ⟨NodeKind.classDecl "K", some 0⟩,
    ⟨NodeKind.classDecl "B", some 0⟩ ]

/-- The cache module for the direct-inference scenario. -/
def modC1 : ModuleEntry :=
  ⟨"app.models", [("B", [7]), ("A", [1]), ("K", [6])]⟩

/-- Context in which the name candidate `OtherModel` infers to class `K`
(arena id 6) and the string candidate `"B"` structurally matches class `B`
(arena id 7). -/
def ctxC1 : Ctx where
  ast := astC1
  cache := [modC1]
  findModule := fun s => if s = "app.models" then some modC1 else none
  nodeIsSubclass := fun _ _ => true
  registry := fun _ _ => Except.error RegErr.lookupErr
  inferOracle := fun i => if i = 4 then Except.ok [6] else Except.error ()
  fuel := 10

/-- Same arena and cache, but the call's only candidate is the string literal
`"B"` (the name candidate is absent). -/
def astC1b : List AstNode :=
  astC1.set 3 ⟨NodeKind.call (FuncExpr.nameF "ForeignKey") [5] [], some 2⟩

/-- Context for the string-only variant of the direct-inference scenario. -/
def ctxC1b : Ctx :=
  { ctxC1 with ast := astC1b }

/-- Arena for the cyclic-import scenario: the `ImportFrom` nodes of two
modules that re-export `B` from each other. -/
def astC2 : List AstNode :=
  [ ⟨NodeKind.importFrom "app.base", none⟩,
    ⟨NodeKind.importFrom "app.models", none⟩ ]

/-- `app.models`, whose only binding of `B` is `from app.base import B`. -/
def modC2a : ModuleEntry := ⟨"app.models", [("B", [0])]⟩

/-- `app.base`, whose only binding of `B` is `from app.models import B`. -/
def modC2b : ModuleEntry := ⟨"app.base", [("B", [1])]⟩

/-- Context whose module graph is the two-module `from`-import cycle. -/
def ctxC2 : Ctx where
  ast := astC2
  cache := [modC2a, modC2b]
  findModule := fun s =>
    if s = "app.base" then some modC2b
    else if s = "app.models" then some modC2a
    else none
  nodeIsSubclass := fun _ _ => true
  registry := fun _ _ => Except.error RegErr.lookupErr
  inferOracle := fun _ => Except.error ()
  fuel := 10

/-- Arena for the non-string-literal scenario: `x = ForeignKey(5)` inside a
model class, the literal being the only candidate. -/
def astC3 : List AstNode :=
  [ ⟨NodeKind.module "app.models", none⟩,
    ⟨NodeKind.classDecl "A", some 0⟩,
    ⟨NodeKind.assign, some 1⟩,
    ⟨NodeKind.call (FuncExpr.nameF "ForeignKey") [4] [], some 2⟩,
    ⟨NodeKind.const (PyVal.int 5), some 3⟩ ]

/-- Context for `x = ForeignKey(5)`: no prior candidate ever assigns
`key_cls`. -/
def ctxC3 : Ctx where
  ast := astC3
  cache := []
  findModule := fun _ => none
  nodeIsSubclass := fun _ _ => true
  registry := fun _ _ => Except.error RegErr.lookupErr
  inferOracle := fun _ => Except.error ()
  fuel := 10

/-- Arena for `x = ForeignKey(Something, 5)` where inference of `Something`
succeeds with no values, leaving `key_cls = None` when the malformed literal
is reached. -/
def astC3b : List AstNode :=
  [ ⟨NodeKind.module "app.models", none⟩,
    ⟨NodeKind.classDecl "A", some 0⟩,
    ⟨NodeKind.assign, some 1⟩,
    ⟨NodeKind.call (FuncExpr.nameF "ForeignKey") [5, 4] [], some 2⟩,
    ⟨NodeKind.const (PyVal.int 5), some 3⟩,
    ⟨NodeKind.nameExpr "Something", some 3⟩ ]

/-- Context for the `key_cls = None` variant of the malformed-literal
scenario. -/
def ctxC3b : Ctx where
  ast := astC3b
  cache := []
  findModule := fun _ => none
  nodeIsSubclass := fun _ _ => true
  registry := fun _ _ => Except.error RegErr.lookupErr
  inferOracle := fun i => if i = 5 then Except.ok [] else Except.error ()
  fuel := 10

/-- `app.models` of the forwarding scenario: it binds `B` only through
`from app.base import B` (arena id 5). -/
def modC5a : ModuleEntry := ⟨"app.models", [("B", [5])]⟩

/-- `app.base` of the forwarding scenario: it defines class `B`
(arena id 6). -/
def modC5b : ModuleEntry := ⟨"app.base", [("B", [6])]⟩

/-- Arena for the forwarding scenario: a call site `x = ForeignKey("app.models.B")`
in module `site.models`, the `ImportFrom` node of `app.models`, and the class
`B` defined in `app.base`. -/
def astC5 : List AstNode :=
  [ ⟨NodeKind.module "site.models", none⟩,
    ⟨NodeKind.classDecl "A", some 0⟩,
    ⟨NodeKind.assign, some 1⟩,
    ⟨NodeKind.call (FuncExpr.nameF "ForeignKey") [4] [], some 2⟩,
    ⟨NodeKind.const (PyVal.str "app.models.B"), some 3⟩,
    ⟨NodeKind.importFrom "app.base", none⟩,
    ⟨NodeKind.classDecl "B", none⟩ ]

/-- Context in which the hint `app.models` is matched by a module that only
re-exports `B` from `app.base`. -/
def ctxC5 : Ctx where
  ast := astC5
  cache := [modC5a, modC5b]
  findModule := fun s =>
    if s = "app.base" then some modC5b
    else if s = "app.models" then some modC5a
    else none
  nodeIsSubclass := fun _ _ => true
  registry := fun _ _ => Except.error RegErr.lookupErr
  inferOracle := fun _ => Except.error ()
  fuel := 10

/-- Arena for the app-label scenarios: `x = ForeignKey("otherapp.B")` inside a
model class, plus the class `B` (arena id 5) that `otherapp.models` defines. -/
def astC4 : List AstNode :=
  [ ⟨NodeKind.module "site.models", none⟩,
    ⟨NodeKind.classDecl "A", some 0⟩,
    ⟨NodeKind.assign, some 1⟩,
    ⟨NodeKind.call (FuncExpr.nameF "ForeignKey") [4] [], some 2⟩,
    ⟨NodeKind.const (PyVal.str "otherapp.B"), some 3⟩,
    ⟨NodeKind.classDecl "B", none⟩ ]

/-- Context in which Django reports `ImproperlyConfigured` for every registry
lookup. -/
def ctxC4 : Ctx where
  ast := astC4
  cache := []
  findModule := fun _ => none
  nodeIsSubclass := fun _ _ => true
  registry := fun _ _ => Except.error RegErr.improperlyConfigured
  inferOracle := fun _ => Except.error ()
  fuel := 10

/-- The module `otherapp.models` defining class `B` (arena id 5). -/
def modC6 : ModuleEntry := ⟨"otherapp.models", [("B", [5])]⟩

/-- Context in which every registry lookup fails with `LookupError` while the
cache holds `otherapp.models` with its class `B`. -/
def ctxC6 : Ctx where
  ast := astC4
  cache := [modC6]
  findModule := fun s => if s = "otherapp.models" then some modC6 else none
  nodeIsSubclass := fun _ _ => true
  registry := fun _ _ => Except.error RegErr.lookupErr
  inferOracle := fun _ => Except.error ()
  fuel := 10

/-- Arena for the positional `"self"` scenario: `owner = ForeignKey("self")`
inside class `A` of module `app.models`. -/
def astC7 : List AstNode :=
  [ ⟨NodeKind.module "app.models", none⟩,
    ⟨NodeKind.classDecl "A", some 0⟩,
    ⟨NodeKind.assign, some 1⟩,
    ⟨NodeKind.call (FuncExpr.nameF "ForeignKey") [4] [], some 2⟩,
    ⟨NodeKind.const (PyVal.str "self"), some 3⟩ ]

/-- Context for the positional `"self"` scenario. -/
def ctxC7 : Ctx where
  ast := astC7
  cache := [⟨"app.models", [("A", [1])]⟩]
  findModule := fun _ => none
  nodeIsSubclass := fun _ _ => true
  registry := fun _ _ => Except.error RegErr.lookupErr
  inferOracle := fun _ => Except.error ()
  fuel := 10

/-- Arena for the keyword `"self"` scenario:
`owner = ForeignKey(to="self")` inside class `A` of module `app.models`. -/
def astC7k : List AstNode :=
  [ ⟨NodeKind.module "app.models", none⟩,
    ⟨NodeKind.classDecl "A", some 0⟩,
    ⟨NodeKind.assign, some 1⟩,
    ⟨NodeKind.call (FuncExpr.nameF "ForeignKey") [] [5], some 2⟩,
    ⟨NodeKind.const (PyVal.str "self"), some 5⟩,
    ⟨NodeKind.keyword (some "to") 4, some 3⟩ ]

/-- Context for the keyword `"self"` scenario. -/
def ctxC7k : Ctx where
  ast := astC7k
  cache := [⟨"app.models", [("A", [1])]⟩]
  findModule := fun _ => none
  nodeIsSubclass := fun _ _ => true
  registry := fun _ _ => Except.error RegErr.lookupErr
  inferOracle := fun _ => Except.error ()
  fuel := 10

theorem splitLastDot_of_no_dot (b : List Char) (hb : '.' ∉ b) : splitLastDot b = none := by
  induction b with
  | nil => rfl
  | cons c rest ih =>
    have hc : c ≠ '.' := by
      intro e
      exact hb (e ▸ List.mem_cons_self c rest)
    have hr : '.' ∉ rest := fun m => hb (List.mem_cons_of_mem _ m)
    simp only [splitLastDot, ih hr]
    simp [hc]

theorem splitLastDot_append (a b : List Char) (hb : '.' ∉ b) :
    splitLastDot (a ++ '.' :: b) = some (a, b) := by
  induction a with
  | nil => simp [splitLastDot, splitLastDot_of_no_dot b hb]
  | cons c a ih => simp [splitLastDot, ih]

/-- C9: a string candidate that is not `"self"` and contains at least one dot
is split on the last dot: the class name is the substring after the last dot
and the module prefix is everything before it. -/
theorem C9_last_dot_split (ctx : Ctx) (argId : Nat) (s : String) (a b : List Char)
    (hself : s ≠ "self") (hs : s.toList = a ++ '.' :: b) (hb : '.' ∉ b) :
    constNames ctx argId (PyVal.str s) = Except.ok (String.mk a, String.mk b) := by
  have hv : (PyVal.str s = PyVal.str "self") = False := by
    simp [hself]
  simp only [constNames, hv, if_false]
  simp only [rpartitionDot, hs, splitLastDot_append a b hb]

/-- C9 witness: `"otherapp.models.B"` splits into prefix `"otherapp.models"`
and class name `"B"`. -/
theorem C9_last_dot_split_witness :
    "otherapp.models.B" ≠ "self" ∧
    constNames ctxEmpty 0 (PyVal.str "otherapp.models.B") =
      Except.ok ("otherapp.models", "B") := by
  refine ⟨by decide, ?_⟩
  have h := C9_last_dot_split ctxEmpty 0 "otherapp.models.B"
    "otherapp.models".toList "B".toList (by decide) (by decide) (by decide)
  exact h.trans (by decide)

/-- C10: a dotted prefix ending in the character sequence `models` (a dot
before it not required) is used as the module hint unchanged and Django's
registry is not consulted — the outcome is the same for every registry; the
registry is consulted exactly when the prefix does not end in `models`. -/
theorem C10_models_suffix_skips_registry (ctx : Ctx) (callId : Nat) (p c : String)
    (hp : p ≠ "") :
    (strEndsWith p "models" = true →
      ∀ reg, resolveModuleHint { ctx with registry := reg } callId p c = Except.ok p) ∧
    (strEndsWith p "models" = false →
      resolveModuleHint ctx callId p c =
        match ctx.registry c p with
        | Except.ok m => Except.ok m
        | Except.error RegErr.lookupErr => Except.ok (p ++ ".models")
        | Except.error RegErr.improperlyConfigured =>
          Except.error (PyErr.runtimeError djangoSettingsMsg)) := by
  constructor
  · intro h reg
    simp [resolveModuleHint, hp, h]
  · intro h
    simp [resolveModuleHint, hp, h]

/-- C10 witness: `"custommodels"` (no dot before `models`) keeps the hint
unchanged under an arbitrary registry, while `"otherapp"` goes to the
registry and, on lookup failure, becomes `"otherapp.models"`. -/
theorem C10_models_suffix_skips_registry_witness :
    resolveModuleHint { ctxEmpty with registry := fun _ _ => Except.ok "unrelated" } 0
      "custommodels" "B" = Except.ok "custommodels" ∧
    resolveModuleHint ctxEmpty 0 "otherapp" "B" = Except.ok "otherapp.models" := by
  constructor
  · exact (C10_models_suffix_skips_registry ctxEmpty 0 "custommodels" "B"
      (by decide)).1 (by decide) _
  · have h := (C10_models_suffix_skips_registry ctxEmpty 0 "otherapp" "B"
      (by decide)).2 (by decide)
    exact h.trans (by decide)

/-- C3: evaluating the code on `x = ForeignKey(5)` inside a model class.  The
non-string literal raises `AttributeError` in the parsing block, the handler
executes `break`, and control reaches `return iter([key_cls.instantiate_class()])`
with `key_cls` never assigned — an `UnboundLocalError`, not the
`UseInferenceDefault` escape hatch.  With a preceding name candidate whose
inference yields nothing, `key_cls` is `None` and the same line raises
`AttributeError` instead. -/
theorem C3_malformed_literal_crashes :
    infer_key_classes ctxC3 3 = Except.error PyErr.unboundLocalError ∧
    infer_key_classes ctxC3b 3 = Except.error PyErr.attributeError ∧
    constNames ctxC3 4 (PyVal.int 5) = Except.error () := by decide

theorem c2cycle (f : Nat) :
    (collectDefs ctxC2 f [0] "B" "app.models").2 = Except.error PyErr.recursionError ∧
    (collectDefs ctxC2 f [1] "B" "app.models").2 = Except.error PyErr.recursionError := by
  induction f with
  | zero => exact ⟨rfl, rfl⟩
  | succ f ih =>
    have hg0 : getNode ctxC2 0 = some ⟨NodeKind.importFrom "app.base", none⟩ := rfl
    have hg1 : getNode ctxC2 1 = some ⟨NodeKind.importFrom "app.models", none⟩ := rfl
    have hfa : ctxC2.findModule "app.base" = some modC2b := rfl
    have hfb : ctxC2.findModule "app.models" = some modC2a := rfl
    have hla : lookupLocals modC2b "B" = [1] := rfl
    have hlb : lookupLocals modC2a "B" = [0] := rfl
    constructor
    · have h := ih.2
      cases hinner : collectDefs ctxC2 f [1] "B" "app.models" with
      | mk log r =>
        rw [hinner] at h
        simp only at h
        simp [collectDefs, hg0, hfa, hla, hinner, h]
    · have h := ih.1
      cases hinner : collectDefs ctxC2 f [0] "B" "app.models" with
      | mk log r =>
        rw [hinner] at h
        simp only at h
        simp [collectDefs, hg1, hfb, hlb, hinner, h]

/-- C2: the Module Locator has no visited set.  On the two-module cycle where
`app.models` re-exports `B` from `app.base` and vice versa, the lookup never
terminates normally — every fuel bound is exhausted (a Python
`RecursionError`) — and already within fuel 3 the module `app.models` is
visited twice, violating the visited-at-most-once discipline the claim
states. -/
theorem C2_no_visited_set :
    (∀ fuel, (get_model_class_defs_from_module ctxC2 fuel modC2a "B" "app.models").2 =
      Except.error PyErr.recursionError) ∧
    countStr "app.models"
      (get_model_class_defs_from_module ctxC2 3 modC2a "B" "app.models").1 = 2 := by
  constructor
  · intro fuel
    cases fuel with
    | zero => rfl
    | succ f =>
      have h := (c2cycle f).1
      cases hinner : collectDefs ctxC2 f [0] "B" "app.models" with
      | mk log r =>
        rw [hinner] at h
        simp only at h
        have hlb : lookupLocals modC2a "B" = [0] := rfl
        simp [get_model_class_defs_from_module, hlb, hinner, h]
  · decide

/-- C1 counterexample: in `ctxC1` the candidate sequence is a name candidate
(inferring to class `K`, arena id 6) followed by the string literal `"B"`
that structurally matches class `B` (arena id 7, as the string-only variant
`ctxC1b` shows).  The claim says the structural match must win; the code
returns the directly inferred class immediately. -/
theorem C1_counterexample :
    infer_key_classes ctxC1 3 = Except.ok (Resolved.instanceOf 6) ∧
    infer_key_classes ctxC1b 3 = Except.ok (Resolved.instanceOf 7) ∧
    ctxC1.inferOracle 4 = Except.ok [6] ∧
    (getNode ctxC1 6).map AstNode.kind = some (NodeKind.classDecl "K") ∧
    (getNode ctxC1 7).map AstNode.kind = some (NodeKind.classDecl "B") ∧
    (6 : Nat) ≠ 7 := by decide

/-- C1 (amended): as soon as a name/attribute candidate's inference yields a
first value, the loop breaks and that value is instantiated and returned;
candidates after it — string literals included — are never examined. -/
theorem C1_direct_inference_short_circuits (ctx : Ctx) (callId nid : Nat)
    (nd : AstNode) (v : Nat) (vs : List Nat)
    (h1 : getNode ctx nid = some nd)
    (h2 : (∃ x, nd.kind = NodeKind.nameExpr x) ∨ (∃ x, nd.kind = NodeKind.attributeExpr x))
    (h3 : ctx.inferOracle nid = Except.ok (v :: vs)) :
    (∀ rest k, processArgs ctx callId (nid :: rest) k = LoopOut.broke (KeyCls.val v)) ∧
    (∀ n f rest kws, getNode ctx callId = some n →
      n.kind = NodeKind.call f (nid :: rest) kws →
      infer_key_classes ctx callId =
        match instantiate_class ctx v with
        | Except.ok i => Except.ok (Resolved.instanceOf i)
        | Except.error e => Except.error e) := by
  have main : ∀ rest k, processArgs ctx callId (nid :: rest) k = LoopOut.broke (KeyCls.val v) := by
    intro rest k
    rcases h2 with ⟨x, hx⟩ | ⟨x, hx⟩ <;> simp [processArgs, h1, hx, h3]
  refine ⟨main, ?_⟩
  intro n f rest kws hn hk
  simp only [infer_key_classes, hn, hk, List.cons_append, main]

/-- C1 witness: applying the amended statement in `ctxC1` returns class `K`
(arena id 6), the inferred value, regardless of the string candidate after
it. -/
theorem C1_direct_inference_short_circuits_witness :
    ctxC1.inferOracle 4 = Except.ok [6] ∧
    infer_key_classes ctxC1 3 = Except.ok (Resolved.instanceOf 6) := by
  refine ⟨by decide, ?_⟩
  have h := (C1_direct_inference_short_circuits ctxC1 3 4
    ⟨NodeKind.nameExpr "OtherModel", some 3⟩ 6 [] (by decide) (Or.inl ⟨_, rfl⟩)
    (by decide)).2 ⟨NodeKind.call (FuncExpr.nameF "ForeignKey") [4, 5] [], some 2⟩
    (FuncExpr.nameF "ForeignKey") [5] [] (by decide) rfl
  exact h.trans (by decide)

/-- C4: for a qualified string candidate whose prefix does not end in
`models`, an `ImproperlyConfigured` registry raises the fatal `RuntimeError`
naming `DJANGO_SETTINGS_MODULE` — the loop aborts with it no matter which
candidates remain, and the whole resolution surfaces it instead of falling
back to default inference. -/
theorem C4_improperly_configured_is_fatal (ctx : Ctx) (callId cid : Nat)
    (nd : AstNode) (s p c : String)
    (h1 : getNode ctx cid = some nd) (h2 : nd.kind = NodeKind.const (PyVal.str s))
    (h3 : s ≠ "self") (h4 : rpartitionDot s = (p, c)) (h5 : p ≠ "")
    (h6 : strEndsWith p "models" = false)
    (h7 : ctx.registry c p = Except.error RegErr.improperlyConfigured) :
    (∀ rest k, processArgs ctx callId (cid :: rest) k =
      LoopOut.errored (PyErr.runtimeError djangoSettingsMsg)) ∧
    (∀ n f rest kws, getNode ctx callId = some n →
      n.kind = NodeKind.call f (cid :: rest) kws →
      infer_key_classes ctx callId = Except.error (PyErr.runtimeError djangoSettingsMsg)) ∧
    List.isPrefixOf "DJANGO_SETTINGS_MODULE".toList djangoSettingsMsg.toList = true := by
  have hconst : constNames ctx cid (PyVal.str s) = Except.ok (p, c) := by
    have hv : (PyVal.str s = PyVal.str "self") = False := by simp [h3]
    simp only [constNames, hv, if_false, h4]
  have hhint : resolveModuleHint ctx callId p c =
      Except.error (PyErr.runtimeError djangoSettingsMsg) := by
    simp [resolveModuleHint, h5, h6, h7]
  have main : ∀ rest k, processArgs ctx callId (cid :: rest) k =
      LoopOut.errored (PyErr.runtimeError djangoSettingsMsg) := by
    intro rest k
    simp [processArgs, h1, h2, hconst, hhint]
  refine ⟨main, ?_, by decide⟩
  intro n f rest kws hn hk
  simp only [infer_key_classes, hn, hk, List.cons_append, main]

/-- C4 witness: in `ctxC4` (registry always `ImproperlyConfigured`), the call
`x = ForeignKey("otherapp.B")` aborts with the fatal `RuntimeError`. -/
theorem C4_improperly_configured_is_fatal_witness :
    ctxC4.registry "B" "otherapp" = Except.error RegErr.improperlyConfigured ∧
    infer_key_classes ctxC4 3 = Except.error (PyErr.runtimeError djangoSettingsMsg) := by
  refine ⟨by decide, ?_⟩
  exact (C4_improperly_configured_is_fatal ctxC4 3 4
    ⟨NodeKind.const (PyVal.str "otherapp.B"), some 3⟩ "otherapp.B" "otherapp" "B"
    (by decide) rfl (by decide) (by decide) (by decide) (by decide) (by decide)).2.1
    ⟨NodeKind.call (FuncExpr.nameF "ForeignKey") [4] [], some 2⟩
    (FuncExpr.nameF "ForeignKey") [] [] (by decide) rfl

/-- C6: for a qualified string candidate whose prefix does not end in
`models`, a registry `LookupError` turns the hint into `prefix ++ ".models"`
and the candidate proceeds to the cache scan with that derived hint rather
than being given up. -/
theorem C6_lookup_failure_derives_models_hint (ctx : Ctx) (callId cid : Nat)
    (nd : AstNode) (s p c : String)
    (h1 : getNode ctx cid = some nd) (h2 : nd.kind = NodeKind.const (PyVal.str s))
    (h3 : s ≠ "self") (h4 : rpartitionDot s = (p, c)) (h5 : p ≠ "")
    (h6 : strEndsWith p "models" = false)
    (h7 : ctx.registry c p = Except.error RegErr.lookupErr) :
    resolveModuleHint ctx callId p c = Except.ok (p ++ ".models") ∧
    (∀ rest k, processArgs ctx callId (cid :: rest) k =
      match cacheScan ctx ctx.cache c (p ++ ".models") with
      | Except.error e => LoopOut.errored e
      | Except.ok (some cl) => LoopOut.returned cl
      | Except.ok none => processArgs ctx callId rest k) := by
  have hconst : constNames ctx cid (PyVal.str s) = Except.ok (p, c) := by
    have hv : (PyVal.str s = PyVal.str "self") = False := by simp [h3]
    simp only [constNames, hv, if_false, h4]
  have hhint : resolveModuleHint ctx callId p c = Except.ok (p ++ ".models") := by
    simp [resolveModuleHint, h5, h6, h7]
  refine ⟨hhint, ?_⟩
  intro rest k
  simp only [processArgs, h1, h2, hconst, hhint]

/-- C6 witness: in `ctxC6` (registry always `LookupError`), the candidate
`"otherapp.B"` derives the hint `otherapp.models` and the cache scan finds
class `B` (arena id 5) there. -/
theorem C6_lookup_failure_derives_models_hint_witness :
    ctxC6.registry "B" "otherapp" = Except.error RegErr.lookupErr ∧
    resolveModuleHint ctxC6 3 "otherapp" "B" = Except.ok "otherapp.models" ∧
    processArgs ctxC6 3 [4] KeyCls.unbound = LoopOut.returned 5 := by
  have h := C6_lookup_failure_derives_models_hint ctxC6 3 4
    ⟨NodeKind.const (PyVal.str "otherapp.B"), some 3⟩ "otherapp.B" "otherapp" "B"
    (by decide) rfl (by decide) (by decide) (by decide) (by decide) (by decide)
  exact ⟨by decide, h.1, (h.2 [] KeyCls.unbound).trans (by decide)⟩

/-- C5 counterexample: resolving `"app.models.B"` (hint `app.models`) in
`ctxC5` produces class `B` with arena id 6, which is bound only in module
`app.base` — a module whose dotted path does not end with the hint.  The
matching module `app.models` merely re-exports it via `from app.base import
B`, so a same-named class defined in a non-matching module is produced as the
result. -/
theorem C5_counterexample :
    rpartitionDot "app.models.B" = ("app.models", "B") ∧
    infer_key_classes ctxC5 3 = Except.ok (Resolved.instanceOf 6) ∧
    modulesBinding ctxC5.cache 6 = ["app.base"] ∧
    strEndsWith "app.base" "app.models" = false ∧
    (getNode ctxC5 6).map AstNode.kind = some (NodeKind.classDecl "B") := by decide

/-- C5 (amended): a class returned by the cache scan is always obtained
through some cached module whose dotted path ends with the hint and whose
locals bind the class name — it is the first class the locator collects from
that module — but by following `from X import Y` re-exports the class itself
may be defined in a module that does not match the hint; and the scan yields
at most this single class. -/
theorem C5_suffix_guard_on_entry_module (ctx : Ctx) (mods : List ModuleEntry)
    (c hint : String) (cl : Nat)
    (h : cacheScan ctx mods c hint = Except.ok (some cl)) :
    ∃ m ∈ mods, strEndsWith m.name hint = true ∧ (m.locals.lookup c).isSome = true ∧
      ∃ restCl, (get_model_class_defs_from_module ctx ctx.fuel m c hint).2 =
        Except.ok (cl :: restCl) := by
  induction mods with
  | nil => simp [cacheScan] at h
  | cons m rest ih =>
    rw [cacheScan] at h
    by_cases hc : ((m.locals.lookup c).isSome && strEndsWith m.name hint) = true
    · rw [if_pos hc] at h
      rcases Bool.and_eq_true_iff.mp hc with ⟨hsome, hsuf⟩
      cases hg : (get_model_class_defs_from_module ctx ctx.fuel m c hint).2 with
      | error e => rw [hg] at h; cases h
      | ok ds =>
        cases ds with
        | nil =>
          rw [hg] at h
          obtain ⟨m', hm', hrest⟩ := ih h
          exact ⟨m', List.mem_cons_of_mem _ hm', hrest⟩
        | cons c0 tail =>
          rw [hg] at h
          have hcl : c0 = cl := by
            injection h with h'
            injection h'
          exact ⟨m, List.mem_cons_self m rest, hsuf, hsome, tail, hcl ▸ hg⟩
    · rw [if_neg hc] at h
      obtain ⟨m', hm', hrest⟩ := ih h
      exact ⟨m', List.mem_cons_of_mem _ hm', hrest⟩

/-- C5 witness: in `ctxC5` the scan's result class 6 is reached through the
matching module `app.models`, whose locator run collects exactly `[6]`. -/
theorem C5_suffix_guard_on_entry_module_witness :
    ∃ m ∈ ctxC5.cache, strEndsWith m.name "app.models" = true ∧
      (m.locals.lookup "B").isSome = true ∧
      ∃ restCl, (get_model_class_defs_from_module ctxC5 ctxC5.fuel m "B" "app.models").2 =
        Except.ok (6 :: restCl) :=
  C5_suffix_guard_on_entry_module ctxC5 ctxC5.cache "B" "app.models" 6 (by decide)

/-- C7: for a `"self"` candidate the model name is the enclosing class's
name, found by walking four parents in the `to=` keyword form (keyword, call,
assignment, class) and three in the positional form (call, assignment,
class); the hint is the enclosing module's dotted path; and when the cache
scan locates the enclosing class under that name and hint, the result is an
instance of the enclosing class, in both forms. -/
theorem C7_self_resolves_to_enclosing_class (ctx : Ctx)
    (callId asgId clsId modId cid kwId : Nat) (className moduleName : String)
    (f : FuncExpr) (mp : Option Nat)
    (hmod : getNode ctx modId = some ⟨NodeKind.module moduleName, mp⟩)
    (hcls : getNode ctx clsId = some ⟨NodeKind.classDecl className, some modId⟩)
    (hasg : getNode ctx asgId = some ⟨NodeKind.assign, some clsId⟩)
    (hfuel : 3 ≤ ctx.fuel)
    (hscan : cacheScan ctx ctx.cache className moduleName = Except.ok (some clsId))
    (hform :
      (getNode ctx callId = some ⟨NodeKind.call f [cid] [], some asgId⟩ ∧
        getNode ctx cid = some ⟨NodeKind.const (PyVal.str "self"), some callId⟩) ∨
      (getNode ctx callId = some ⟨NodeKind.call f [] [kwId], some asgId⟩ ∧
        getNode ctx kwId = some ⟨NodeKind.keyword (some "to") cid, some callId⟩ ∧
        getNode ctx cid = some ⟨NodeKind.const (PyVal.str "self"), some kwId⟩)) :
    infer_key_classes ctx callId = Except.ok (Resolved.instanceOf clsId) := by
  obtain ⟨f3, hf3⟩ : ∃ f3, ctx.fuel = Nat.succ (Nat.succ (Nat.succ f3)) :=
    ⟨ctx.fuel - 3, by omega⟩
  have hinst : instantiate_class ctx clsId = Except.ok clsId := by
    simp [instantiate_class, hcls]
  rcases hform with ⟨hcall, hcid⟩ | ⟨hcall, hkw, hcid⟩
  · have hframe : frameOf ctx (Nat.succ (Nat.succ (Nat.succ f3))) callId =
        Except.ok clsId := by
      simp [frameOf, hcall, hasg, hcls, isFrameKind]
    have hmodframe : frameOf ctx ctx.fuel modId = Except.ok modId := by
      rw [hf3]
      simp [frameOf, hmod, isFrameKind]
    have hencl : enclosingModule ctx (Nat.succ (Nat.succ (Nat.succ f3))) clsId =
        Except.ok moduleName := by
      simp [enclosingModule, hcls, hmod, hmodframe]
    have hhint : resolveModuleHint ctx callId "" className = Except.ok moduleName := by
      simp [resolveModuleHint, hf3, hframe, hencl]
    have hconst : constNames ctx cid (PyVal.str "self") = Except.ok ("", className) := by
      simp [constNames, pyParent, pyName, parentIsKeywordTo, hcid, hcall, hasg, hcls,
        Except.bind]
    have hargs : processArgs ctx callId [cid] KeyCls.unbound = LoopOut.returned clsId := by
      simp [processArgs, hcid, hconst, hhint, hscan]
    simp [infer_key_classes, hcall, hargs, hinst]
  · have hframe : frameOf ctx (Nat.succ (Nat.succ (Nat.succ f3))) callId =
        Except.ok clsId := by
      simp [frameOf, hcall, hasg, hcls, isFrameKind]
    have hmodframe : frameOf ctx ctx.fuel modId = Except.ok modId := by
      rw [hf3]
      simp [frameOf, hmod, isFrameKind]
    have hencl : enclosingModule ctx (Nat.succ (Nat.succ (Nat.succ f3))) clsId =
        Except.ok moduleName := by
      simp [enclosingModule, hcls, hmod, hmodframe]
    have hhint : resolveModuleHint ctx callId "" className = Except.ok moduleName := by
      simp [resolveModuleHint, hf3, hframe, hencl]
    have hconst : constNames ctx cid (PyVal.str "self") = Except.ok ("", className) := by
      simp [constNames, pyParent, pyName, parentIsKeywordTo, hcid, hkw, hcall, hasg, hcls,
        Except.bind]
    have hargs : processArgs ctx callId [cid] KeyCls.unbound = LoopOut.returned clsId := by
      simp [processArgs, hcid, hconst, hhint, hscan]
    simp [infer_key_classes, hcall, hkw, hargs, hinst]

/-- C7 witness: `owner = ForeignKey("self")` and `owner = ForeignKey(to="self")`
inside class `A` of `app.models` both resolve to an instance of `A`
(arena id 1). -/
theorem C7_self_resolves_to_enclosing_class_witness :
    infer_key_classes ctxC7 3 = Except.ok (Resolved.instanceOf 1) ∧
    infer_key_classes ctxC7k 3 = Except.ok (Resolved.instanceOf 1) :=
  ⟨C7_self_resolves_to_enclosing_class ctxC7 3 2 1 0 4 0 "A" "app.models"
      (FuncExpr.nameF "ForeignKey") none rfl rfl rfl (by decide) (by decide)
      (Or.inl ⟨rfl, rfl⟩),
    C7_self_resolves_to_enclosing_class ctxC7k 3 2 1 0 4 5 "A" "app.models"
      (FuncExpr.nameF "ForeignKey") none rfl rfl rfl (by decide) (by decide)
      (Or.inr ⟨rfl, rfl, rfl⟩)⟩

theorem isAssignKind_iff (k : NodeKind) : isAssignKind k = true ↔ k = NodeKind.assign := by
  cases k <;> simp [isAssignKind]

theorem isClassdefKind_iff (k : NodeKind) :
    isClassdefKind k = true ↔ ∃ c, k = NodeKind.classDecl c := by
  cases k <;> simp [isClassdefKind]

theorem calleeNameOk_iff (k : NodeKind) :
    calleeNameOk k = true ↔
      ∃ f args kws a, k = NodeKind.call f args kws ∧ funcAttr f = some a ∧
        (a = "OneToOneField" ∨ a = "ForeignKey") := by
  cases k <;> try simp [calleeNameOk]
  rename_i f args kws
  cases f <;> simp [calleeNameOk, funcAttr]

/-- C8: the classifier is a total Boolean predicate that accepts exactly the
calls whose parent is a simple assignment, whose grandparent is a class
recognized by `node_is_subclass` as a Django model subclass, and whose callee
(name or attribute form) is `OneToOneField` or `ForeignKey`; every structural
mismatch yields `false` rather than an exception. -/
theorem C8_classifier_iff (ctx : Ctx) (nid : Nat) :
    is_foreignkey_in_class ctx nid = true ↔
      ∃ n pid p gid g,
        getNode ctx nid = some n ∧ n.parent = some pid ∧
        getNode ctx pid = some p ∧ p.kind = NodeKind.assign ∧
        p.parent = some gid ∧ getNode ctx gid = some g ∧
        (∃ cname, g.kind = NodeKind.classDecl cname) ∧
        ctx.nodeIsSubclass gid ["django.db.models.base.Model", ".Model"] = true ∧
        (∃ f args kws a, n.kind = NodeKind.call f args kws ∧ funcAttr f = some a ∧
          (a = "OneToOneField" ∨ a = "ForeignKey")) := by
  constructor
  · intro h
    unfold is_foreignkey_in_class at h
    cases hn : getNode ctx nid with
    | none => simp [hn] at h
    | some n =>
      simp only [hn] at h
      cases hp : n.parent with
      | none => simp [hp] at h
      | some pid =>
        simp only [hp] at h
        cases hpn : getNode ctx pid with
        | none => simp [hpn] at h
        | some p =>
          simp only [hpn] at h
          cases ha : isAssignKind p.kind with
          | false => simp [ha] at h
          | true =>
            rw [if_neg (by simp [ha])] at h
            cases hpp : p.parent with
            | none => simp [hpp] at h
            | some gid =>
              simp only [hpp] at h
              cases hg : getNode ctx gid with
              | none => simp [hg] at h
              | some g =>
                simp only [hg] at h
                cases hc : isClassdefKind g.kind with
                | false => simp [hc] at h
                | true =>
                  rw [if_neg (by simp [hc])] at h
                  cases hs : ctx.nodeIsSubclass gid
                      ["django.db.models.base.Model", ".Model"] with
                  | false => simp [hs] at h
                  | true =>
                    rw [if_neg (by simp [hs])] at h
                    exact ⟨n, pid, p, gid, g, rfl, hp, hpn, (isAssignKind_iff p.kind).mp ha,
                      hpp, hg, (isClassdefKind_iff g.kind).mp hc, hs,
                      (calleeNameOk_iff n.kind).mp h⟩
  · rintro ⟨n, pid, p, gid, g, hn, hp, hpn, hpa, hpp, hg, ⟨cname, hgk⟩, hs,
      f', args', kws', a, hnk, hfa, hor⟩
    have ha : isAssignKind p.kind = true := by rw [hpa]; rfl
    have hc : isClassdefKind g.kind = true := by rw [hgk]; rfl
    unfold is_foreignkey_in_class
    simp only [hn, hp, hpn]
    rw [if_neg (by simp [ha])]
    simp only [hpp, hg]
    rw [if_neg (by simp [hc])]
    rw [if_neg (by simp [hs])]
    exact (calleeNameOk_iff n.kind).mpr ⟨f', args', kws', a, hnk, hfa, hor⟩

end PylintDjango
